import Mathlib

/-!
Verification of the `catch_me_if_you_can` game (src/main.py) against its
specification.  The game-relevant state and operations of the Python program
are shallowly embedded below:

* Python integers are `ℤ`.
* `random.randrange(a, b)` is modelled by passing the drawn value as an
  explicit parameter, constrained (in theorem hypotheses) by the contract
  `a ≤ draw < b`.
* `random.shuffle` is modelled by an arbitrary list constrained to be a
  permutation of the list being shuffled.
* The wall-clock elapsed values `(datetime.now() - last_update).seconds`
  (whole seconds of a timedelta) become explicit integer parameters; the two
  separate `datetime.now()` calls in `Game.change_sun_location` become two
  separate parameters.
* Python's `None`/`False`/`True` results of `Sun.change_radius` become
  `Option Bool` (`none` for the implicit `return None` fall-through); the
  caller's truthiness test `if not has_radius_changed` becomes a comparison
  with `some true`.
* `deque.popleft` with its `try/except IndexError` becomes a total `match` on
  the list, returning `false` on the empty list — no exception can escape.
* Only state read or written by the game logic is kept; pygame surfaces,
  sounds, musics and videos are presentation-layer collaborators outside the
  embedded state.
-/

namespace CatchMe

/-- Modelled from Python builtin semantics: the number of elements of
`range(a, b, s)` for a positive step `s`, namely `max 0 ⌈(b - a) / s⌉`. -/
def pyRangeLen (a b s : ℤ) : ℕ := (b - a + s - 1).toNat / s.toNat

/-- Modelled from Python builtin semantics: `list(range(a, b, s))` for a
positive step `s`: the elements `a + k * s` for `k < pyRangeLen a b s`. -/
def pyRange (a b s : ℤ) : List ℤ :=
  (List.range (pyRangeLen a b s)).map (fun (k : ℕ) => a + (k : ℤ) * s)

/-- The game-relevant state of a `Sun` instance (src/main.py, class `Sun`):
screen dimensions, current radius, centre position, the fixed decrement
`sun_reducing_value`, and the consumable deque `_sun_radii` (front = head). -/
structure SunState where
  screenWidth : ℤ
  screenHeight : ℤ
  radius : ℤ
  centerX : ℤ
  centerY : ℤ
  sunReducingValue : ℤ
  sunRadii : List ℤ
deriving DecidableEq

namespace Sun

/-- Embedding of `Sun.update`: the centre is re-drawn by
`randrange(radius, screen_width - radius)` and
`randrange(radius, screen_height - radius)`; the two draws are the explicit
parameters `rx`, `ry`.  Radius and radii deque are untouched. -/
def update (s : SunState) (rx ry : ℤ) : SunState :=
  { s with centerX := rx, centerY := ry }

/-- Embedding of `Sun.change_radius(first_game_phase, second_game_phase)`.
`rx`, `ry` are the random draws consumed by the inner `self.update()` call
when it happens.  The Python method returns `True`/`False` in the two phase
branches and falls through with an implicit `None` otherwise. -/
def change_radius (s : SunState) (first second : Bool) (rx ry : ℤ) :
    Option Bool × SunState :=
  if first && !second then
    if s.sunReducingValue < s.radius then
      (some true, update { s with radius := s.radius - s.sunReducingValue } rx ry)
    else
      (some false, s)
  else if !first && second then
    match s.sunRadii with
    | [] => (some false, s)
    | a :: rest => (some true, update { s with radius := a, sunRadii := rest } rx ry)
  else
    (none, s)

/-- Embedding of `Sun.initialize_sun_radii`, split at the `shuffle` call: the
list built before shuffling is `list(range(d, radius + 1 - d, d))`. -/
def preShuffleRadii (radius d : ℤ) : List ℤ := pyRange d (radius + 1 - d) d

/-- Embedding of the tail of `Sun.initialize_sun_radii`: after shuffling, the
current radius is prepended, `deque([self.radius] + self._sun_radii)`.
`shuffled` stands for the shuffled list (a permutation of
`preShuffleRadii radius d`). -/
def radiiAfterShuffle (radius : ℤ) (shuffled : List ℤ) : List ℤ :=
  radius :: shuffled

end Sun

/-- Default constant `Game.sun_update_rate` (reposition interval, seconds). -/
def sun_update_rate : ℤ := 2

/-- Default constant `Game.level_time_limit` (timeout interval, seconds). -/
def level_time_limit : ℤ := 2

/-- Default constant: screen width. -/
def screen_width : ℤ := 640

/-- Default constant: screen height. -/
def screen_height : ℤ := 455

/-- Default constant: initial sun radius. -/
def initial_radius : ℤ := 60

/-- Default constant: `sun_reducing_value`, the decrement. -/
def sun_reducing_value : ℤ := 2

/-- The game-relevant state of the `Game` instance: the sun, the boolean
soup, and the currently displayed message text. -/
structure GameState where
  sun : SunState
  running : Bool
  runningEndVideo : Bool
  endLevel : Bool
  endGame : Bool
  firstGamePhase : Bool
  secondGamePhase : Bool
  victory : Bool
  message : String
deriving DecidableEq

namespace Game

/-- Embedding of `Game.__does_point_belong_to_circle`: inclusive-boundary
disc membership test for a click point against the sun. -/
def does_point_belong_to_circle (px py : ℤ) (s : SunState) : Bool :=
  decide ((px - s.centerX) ^ 2 + (py - s.centerY) ^ 2 ≤ s.radius ^ 2)

/-- Embedding of the `MOUSEBUTTONDOWN` arm of `Game.process_input` for one
click at `(mx, my)`: guarded by `not self.end_game`; on a hit sets
`end_level`, calls `change_radius`, and on a falsy result (`False` or `None`)
sets `victory` and flips the phase booleans (the `second_game_phase` test
runs before the `first_game_phase` test, as in the source). -/
def processClick (g : GameState) (mx my rx ry : ℤ) : GameState :=
  if g.endGame then g
  else if does_point_belong_to_circle mx my g.sun then
    let g1 := { g with endLevel := true }
    let res := Sun.change_radius g1.sun g1.firstGamePhase g1.secondGamePhase rx ry
    let g2 := { g1 with sun := res.2 }
    if res.1 = some true then g2
    else
      let g3 := { g2 with victory := true }
      let g4 :=
        if g3.secondGamePhase then { g3 with secondGamePhase := false } else g3
      if g4.firstGamePhase then
        { g4 with firstGamePhase := false, secondGamePhase := true }
      else g4
  else g

/-- Embedding of the state effects of `Game.render` (drawing, sounds, music
and the blocking sleeps have no effect on the embedded state).  The phase
advance branch (`victory and not first and second`) pops the next size via
`change_radius(False, True)` — consuming draws `rx`, `ry` — resets the
message to the inter-level text and clears the outcome booleans; the final
victory branch stops the loop and starts the end video; otherwise an ended
level merely clears `end_level`. -/
def renderStep (g : GameState) (rx ry : ℤ) : GameState :=
  if g.victory && (!g.firstGamePhase && g.secondGamePhase) then
    let res := Sun.change_radius g.sun false true rx ry
    { g with sun := res.2, message := "Gagné !",
             endLevel := false, endGame := false, victory := false }
  else if g.victory && (!g.firstGamePhase && !g.secondGamePhase) then
    { g with message := "Félicitations !!!\nCette fois tu as VRAIMENT terminé le jeu ^^\nVoici ta récompense (c\x27est ta faute, Kev ^^) !",
             running := false, runningEndVideo := true }
  else if g.endLevel then
    { g with endLevel := false }
  else g

/-- Embedding of `Game.change_sun_location`.  `e1` and `e2` are the whole
elapsed seconds `(datetime.now() - self.last_sun_location_update).seconds`
observed at the first and second comparison (two separate `now()` calls);
`rx`, `ry` are the draws consumed by `sun.update()` if it runs. -/
def change_sun_location (g : GameState) (e1 e2 rx ry : ℤ) : GameState :=
  let g1 :=
    if e1 = level_time_limit then
      { g with message := "Perdu !", endLevel := true, endGame := true }
    else g
  if !g1.endGame && (g1.endLevel || e2 = sun_update_rate) then
    { g1 with sun := Sun.update g1.sun rx ry }
  else g1

end Game

/-- C1: in ShrinkPhase (`first_game_phase = True`, `second_game_phase =
False`), a hit-advance with `size > d` returns `True` and shrinks the size by
exactly `d`; with `size ≤ d` it returns `False` and leaves the whole sun
state (in particular its size) unchanged. -/
theorem shrink_hit_advance (s : SunState) (rx ry : ℤ) :
    (s.sunReducingValue < s.radius →
      (Sun.change_radius s true false rx ry).1 = some true ∧
      (Sun.change_radius s true false rx ry).2.radius =
        s.radius - s.sunReducingValue) ∧
    (s.radius ≤ s.sunReducingValue →
      (Sun.change_radius s true false rx ry).1 = some false ∧
      (Sun.change_radius s true false rx ry).2 = s) := by
  constructor
  · intro h
    simp [Sun.change_radius, Sun.update, h]
  · intro h
    have h' : ¬ s.sunReducingValue < s.radius := not_lt.mpr h
    simp [Sun.change_radius, h']

/-- Witness for C1 at a concrete sun: radius 60 shrinks to 58, radius 2 is
left unchanged with a `False` result. -/
theorem shrink_hit_advance_witness :
    ((Sun.change_radius ⟨640, 455, 60, 100, 100, 2, []⟩ true false 5 7).1 =
        some true ∧
      (Sun.change_radius ⟨640, 455, 60, 100, 100, 2, []⟩ true false 5 7).2.radius =
        (60 : ℤ) - 2) ∧
    ((Sun.change_radius ⟨640, 455, 2, 100, 100, 2, []⟩ true false 5 7).1 =
        some false ∧
      (Sun.change_radius ⟨640, 455, 2, 100, 100, 2, []⟩ true false 5 7).2 =
        ⟨640, 455, 2, 100, 100, 2, []⟩) :=
  ⟨(shrink_hit_advance ⟨640, 455, 60, 100, 100, 2, []⟩ 5 7).1 (by decide),
   (shrink_hit_advance ⟨640, 455, 2, 100, 100, 2, []⟩ 5 7).2 (by decide)⟩

/-- C5: the hit test is exactly `(dx² + dy²) ≤ size²`; a click at exact
distance `size` (squared distance `size²`) is a hit, and a click at distance
`size + 1` (squared distance `(size+1)²`) is a miss, for nonnegative size. -/
theorem hit_test_boundary (px py : ℤ) (s : SunState) :
    (Game.does_point_belong_to_circle px py s = true ↔
      (px - s.centerX) ^ 2 + (py - s.centerY) ^ 2 ≤ s.radius ^ 2) ∧
    ((px - s.centerX) ^ 2 + (py - s.centerY) ^ 2 = s.radius ^ 2 →
      Game.does_point_belong_to_circle px py s = true) ∧
    (0 ≤ s.radius →
      (px - s.centerX) ^ 2 + (py - s.centerY) ^ 2 = (s.radius + 1) ^ 2 →
      Game.does_point_belong_to_circle px py s = false) := by
  refine ⟨by simp [Game.does_point_belong_to_circle], ?_, ?_⟩
  · intro h
    simp [Game.does_point_belong_to_circle, h]
  · intro hr h
    simp only [Game.does_point_belong_to_circle, h, decide_eq_false_iff_not,
      not_le]
    nlinarith

/-- Witness for C5: sun of radius 5 centred at the origin; the click (3, 4)
is at exact distance 5 and hits, the click (6, 0) is at distance 6 and
misses. -/
theorem hit_test_boundary_witness :
    Game.does_point_belong_to_circle 3 4 ⟨640, 455, 5, 0, 0, 2, []⟩ = true ∧
    Game.does_point_belong_to_circle 6 0 ⟨640, 455, 5, 0, 0, 2, []⟩ = false :=
  ⟨(hit_test_boundary 3 4 ⟨640, 455, 5, 0, 0, 2, []⟩).2.1 (by decide),
   (hit_test_boundary 6 0 ⟨640, 455, 5, 0, 0, 2, []⟩).2.2 (by decide) (by decide)⟩

/-- C7 counterexample: the claimed invariant `level_time_limit >
sun_update_rate` (timeout strictly greater than reposition interval) fails on
the defaults: both are 2 seconds. -/
theorem timer_invariant_counterexample :
    ¬ sun_update_rate < level_time_limit := by decide

/-- C7 amended: the timeout interval equals the reposition interval (both 2
seconds) in the default configuration, so only the non-strict inequality
holds. -/
theorem timer_intervals_equal :
    level_time_limit = sun_update_rate ∧ sun_update_rate ≤ level_time_limit := by
  decide

/-- C8: a click whose point misses the sun changes nothing at all: the
resulting game state (sun size, position and radii, phase booleans, outcome
booleans, message) is exactly the previous one. -/
theorem miss_changes_nothing (g : GameState) (mx my rx ry : ℤ)
    (hmiss : Game.does_point_belong_to_circle mx my g.sun = false) :
    Game.processClick g mx my rx ry = g := by
  unfold Game.processClick
  simp [hmiss]

/-- Witness for C8: a click at the origin misses a sun of radius 5 centred at
(100, 100) and leaves the concrete state untouched. -/
theorem miss_changes_nothing_witness :
    Game.processClick
      ⟨⟨640, 455, 5, 100, 100, 2, [60]⟩, true, false, false, false, true,
        false, false, "Gagné !"⟩ 0 0 9 9 =
    ⟨⟨640, 455, 5, 100, 100, 2, [60]⟩, true, false, false, false, true,
      false, false, "Gagné !"⟩ :=
  miss_changes_nothing
    ⟨⟨640, 455, 5, 100, 100, 2, [60]⟩, true, false, false, false, true,
      false, false, "Gagné !"⟩ 0 0 9 9 (by decide)

/-- C6: whenever the elapsed whole seconds since the last reposition equal
the timeout threshold, `change_sun_location` unconditionally sets the loss
message and the `end_level` and `end_game` flags, leaves the sun untouched
(the timeout is checked before — and blocks — the reposition), for every
state, hence regardless of phase flags and of any click in the same frame;
conversely, when the threshold is not met, the defeat outputs (`end_game`,
`end_level`, message) are all left unchanged. -/
theorem timeout_defeat (g : GameState) (e1 e2 rx ry : ℤ) :
    (e1 = level_time_limit →
      Game.change_sun_location g e1 e2 rx ry =
        { g with message := "Perdu !", endLevel := true, endGame := true }) ∧
    (e1 ≠ level_time_limit →
      (Game.change_sun_location g e1 e2 rx ry).endGame = g.endGame ∧
      (Game.change_sun_location g e1 e2 rx ry).endLevel = g.endLevel ∧
      (Game.change_sun_location g e1 e2 rx ry).message = g.message) := by
  constructor
  · intro h
    simp [Game.change_sun_location, h]
  · intro h
    unfold Game.change_sun_location
    simp only [if_neg h]
    by_cases hrep : (!g.endGame && (g.endLevel || e2 = sun_update_rate)) = true
    · simp [hrep]
    · simp [hrep]

/-- Witness for C6: with elapsed 2 s the concrete mid-ShrinkPhase state is
marked lost; with elapsed 1 s its defeat outputs are untouched. -/
theorem timeout_defeat_witness :
    (Game.change_sun_location
        ⟨⟨640, 455, 60, 100, 100, 2, [60]⟩, true, false, false, false, true,
          false, false, "Gagné !"⟩ 2 0 9 9 =
      ⟨⟨640, 455, 60, 100, 100, 2, [60]⟩, true, false, true, true, true,
        false, false, "Perdu !"⟩) ∧
    (Game.change_sun_location
        ⟨⟨640, 455, 60, 100, 100, 2, [60]⟩, true, false, false, false, true,
          false, false, "Gagné !"⟩ 1 0 9 9).endGame = false :=
  ⟨(timeout_defeat
      ⟨⟨640, 455, 60, 100, 100, 2, [60]⟩, true, false, false, false, true,
        false, false, "Gagné !"⟩ 2 0 9 9).1 (by decide),
   ((timeout_defeat
      ⟨⟨640, 455, 60, 100, 100, 2, [60]⟩, true, false, false, false, true,
        false, false, "Gagné !"⟩ 1 0 9 9).2 (by decide)).1⟩

/-- C9: a reposition (`Sun.update`) with draws satisfying the `randrange`
contracts puts the new centre inside `[size, width − size] × [size,
height − size]` and leaves the size and the radii sequence unchanged; and
the reposition path of `change_sun_location` never alters the phase flags. -/
theorem reposition_in_bounds (s : SunState) (rx ry : ℤ)
    (hx : s.radius ≤ rx ∧ rx < s.screenWidth - s.radius)
    (hy : s.radius ≤ ry ∧ ry < s.screenHeight - s.radius)
    (g : GameState) (e1 e2 rx2 ry2 : ℤ) :
    (s.radius ≤ (Sun.update s rx ry).centerX ∧
      (Sun.update s rx ry).centerX ≤ s.screenWidth - s.radius) ∧
    (s.radius ≤ (Sun.update s rx ry).centerY ∧
      (Sun.update s rx ry).centerY ≤ s.screenHeight - s.radius) ∧
    (Sun.update s rx ry).radius = s.radius ∧
    (Sun.update s rx ry).sunRadii = s.sunRadii ∧
    (Game.change_sun_location g e1 e2 rx2 ry2).firstGamePhase =
      g.firstGamePhase ∧
    (Game.change_sun_location g e1 e2 rx2 ry2).secondGamePhase =
      g.secondGamePhase := by
  refine ⟨⟨hx.1, le_of_lt hx.2⟩, ⟨hy.1, le_of_lt hy.2⟩, rfl, rfl, ?_, ?_⟩ <;>
    · unfold Game.change_sun_location
      by_cases h1 : e1 = level_time_limit <;>
        simp only [if_pos, if_neg, h1, if_true, if_false] <;>
        split <;> rfl

/-- Witness for C9 on the default geometry: a draw (60, 60) for a radius-60
sun on the 640×455 screen lands in the closed box, sizes are preserved, and
a concrete `change_sun_location` call preserves the phase flags. -/
theorem reposition_in_bounds_witness :
    ((60 : ℤ) ≤ (Sun.update ⟨640, 455, 60, 100, 100, 2, [60]⟩ 60 60).centerX ∧
      (Sun.update ⟨640, 455, 60, 100, 100, 2, [60]⟩ 60 60).centerX ≤ 640 - 60) ∧
    ((60 : ℤ) ≤ (Sun.update ⟨640, 455, 60, 100, 100, 2, [60]⟩ 60 60).centerY ∧
      (Sun.update ⟨640, 455, 60, 100, 100, 2, [60]⟩ 60 60).centerY ≤ 455 - 60) ∧
    (Sun.update ⟨640, 455, 60, 100, 100, 2, [60]⟩ 60 60).radius = 60 ∧
    (Sun.update ⟨640, 455, 60, 100, 100, 2, [60]⟩ 60 60).sunRadii = [60] ∧
    (Game.change_sun_location
        ⟨⟨640, 455, 60, 100, 100, 2, [60]⟩, true, false, false, false, true,
          false, false, "Gagné !"⟩ 0 2 61 61).firstGamePhase = true ∧
    (Game.change_sun_location
        ⟨⟨640, 455, 60, 100, 100, 2, [60]⟩, true, false, false, false, true,
          false, false, "Gagné !"⟩ 0 2 61 61).secondGamePhase = false :=
  reposition_in_bounds ⟨640, 455, 60, 100, 100, 2, [60]⟩ 60 60
    (by decide) (by decide)
    ⟨⟨640, 455, 60, 100, 100, 2, [60]⟩, true, false, false, false, true,
      false, false, "Gagné !"⟩ 0 2 61 61

/-- C10: `change_radius` is total over all four flag combinations — with
both flags `True` or both `False` it returns `None` and leaves the sun
(radius, position, radii) unchanged — and a click landing on the target when
both flags are `False` (after the final victory) leaves the sun unchanged,
because the caller treats the `None` result exactly like `False`. -/
theorem change_radius_total (s : SunState) (rx ry : ℤ) (g : GameState)
    (mx my : ℤ)
    (hfirst : g.firstGamePhase = false) (hsecond : g.secondGamePhase = false)
    (hhit : Game.does_point_belong_to_circle mx my g.sun = true) :
    Sun.change_radius s true true rx ry = (none, s) ∧
    Sun.change_radius s false false rx ry = (none, s) ∧
    (Game.processClick g mx my rx ry).sun = g.sun := by
  refine ⟨by simp [Sun.change_radius], by simp [Sun.change_radius], ?_⟩
  unfold Game.processClick
  by_cases hend : g.endGame
  · simp [hend]
  · simp [hend, hhit, hfirst, hsecond, Sun.change_radius]

/-- Witness for C10: a concrete post-victory state (both phase flags
`False`), clicked right on the sun centre, keeps its sun unchanged, and both
degenerate flag combinations return `none`. -/
theorem change_radius_total_witness :
    Sun.change_radius ⟨640, 455, 60, 100, 100, 2, [4]⟩ true true 9 9 =
      (none, ⟨640, 455, 60, 100, 100, 2, [4]⟩) ∧
    Sun.change_radius ⟨640, 455, 60, 100, 100, 2, [4]⟩ false false 9 9 =
      (none, ⟨640, 455, 60, 100, 100, 2, [4]⟩) ∧
    (Game.processClick
        ⟨⟨640, 455, 60, 100, 100, 2, [4]⟩, false, true, false, false, false,
          false, true, "Gagné !"⟩ 100 100 9 9).sun =
      ⟨640, 455, 60, 100, 100, 2, [4]⟩ :=
  change_radius_total ⟨640, 455, 60, 100, 100, 2, [4]⟩ 9 9
    ⟨⟨640, 455, 60, 100, 100, 2, [4]⟩, false, true, false, false, false,
      false, true, "Gagné !"⟩ 100 100 rfl rfl (by decide)

/-- Helper: the element count of the pre-shuffle radii list,
`⌊(radius − d)/d⌋` computed with truncation at zero. -/
theorem preShuffleRadii_len (radius d : ℤ) :
    Sun.preShuffleRadii radius d =
      (List.range ((radius - d).toNat / d.toNat)).map
        (fun (k : ℕ) => d + (k : ℤ) * d) := by
  unfold Sun.preShuffleRadii pyRange
  have hn : pyRangeLen d (radius + 1 - d) d = (radius - d).toNat / d.toNat := by
    unfold pyRangeLen
    congr 2
    ring
  rw [hn]

/-- C2: the RandomPhase candidate sizes before shuffling are exactly the
arithmetic progression `d, 2d, …` of all multiples of `d` lying in
`[d, radius − d]`, in increasing order; the full sequence after shuffling
prepends the initial radius, so its length is `⌊(radius − d)/d⌋ + 1`
(30 for the defaults radius = 60, d = 2). -/
theorem random_phase_sequence (radius d : ℤ) (shuffled : List ℤ)
    (hd : 0 < d) (hperm : shuffled.Perm (Sun.preShuffleRadii radius d)) :
    Sun.preShuffleRadii radius d =
      (List.range ((radius - d).toNat / d.toNat)).map
        (fun (k : ℕ) => d * ((k : ℤ) + 1)) ∧
    (∀ x : ℤ, x ∈ Sun.preShuffleRadii radius d ↔
      d ∣ x ∧ d ≤ x ∧ x ≤ radius - d) ∧
    (Sun.radiiAfterShuffle radius shuffled).length =
      (radius - d).toNat / d.toNat + 1 := by
  have hdn : 0 < d.toNat := by omega
  have hmap : Sun.preShuffleRadii radius d =
      (List.range ((radius - d).toNat / d.toNat)).map
        (fun (k : ℕ) => d * ((k : ℤ) + 1)) := by
    rw [preShuffleRadii_len]
    refine List.map_congr_left ?_
    intro k _
    ring
  refine ⟨hmap, ?_, ?_⟩
  · intro x
    rw [hmap]
    simp only [List.mem_map, List.mem_range]
    constructor
    · rintro ⟨k, hk, rfl⟩
      have hk1 : (k + 1) * d.toNat ≤ (radius - d).toNat :=
        (Nat.le_div_iff_mul_le hdn).mp hk
      have hpos : 0 < (radius - d).toNat := by
        have h1 : 1 * d.toNat ≤ (radius - d).toNat :=
          (Nat.le_div_iff_mul_le hdn).mp (Nat.lt_of_lt_of_le (Nat.zero_lt_succ k) hk)
        omega
      have hprod : (((k + 1) * d.toNat : ℕ) : ℤ) = ((k : ℤ) + 1) * d := by
        push_cast
        have hdt : (d.toNat : ℤ) = d := by omega
        rw [hdt]
      have hcast : ((k : ℤ) + 1) * d ≤ radius - d := by
        rw [← hprod]
        omega
      refine ⟨⟨(k : ℤ) + 1, by ring⟩, ?_, by nlinarith⟩
      nlinarith [Int.natCast_nonneg k]
    · rintro ⟨⟨m, rfl⟩, hle, hub⟩
      have hm1 : 1 ≤ m := by nlinarith
      have hmt : (((m - 1).toNat : ℕ) : ℤ) = m - 1 := by omega
      refine ⟨(m - 1).toNat, ?_, ?_⟩
      · have hprod : ((((m - 1).toNat + 1) * d.toNat : ℕ) : ℤ) = d * m := by
          push_cast
          have hdt : (d.toNat : ℤ) = d := by omega
          rw [hdt, hmt]
          ring
        have hx : ((((m - 1).toNat + 1) * d.toNat : ℕ) : ℤ) ≤ radius - d := by
          rw [hprod]
          exact hub
        have hdiv : (m - 1).toNat + 1 ≤ (radius - d).toNat / d.toNat := by
          refine (Nat.le_div_iff_mul_le hdn).mpr ?_
          omega
        omega
      · rw [hmt]
        ring
  · have hlen := hperm.length_eq
    rw [preShuffleRadii_len] at hlen
    simp only [List.length_map, List.length_range] at hlen
    simp [Sun.radiiAfterShuffle, hlen]

/-- Witness for C2 at the defaults (radius 60, decrement 2, identity
shuffle): 58 is a member of the pre-shuffle progression, and the full
sequence has 30 elements. -/
theorem random_phase_sequence_witness :
    ((58 : ℤ) ∈ Sun.preShuffleRadii 60 2 ↔
      (2 : ℤ) ∣ 58 ∧ (2 : ℤ) ≤ 58 ∧ (58 : ℤ) ≤ 60 - 2) ∧
    (Sun.radiiAfterShuffle 60 (Sun.preShuffleRadii 60 2)).length = 30 :=
  ⟨(random_phase_sequence 60 2 (Sun.preShuffleRadii 60 2) (by decide)
      (List.Perm.refl _)).2.1 58,
   ((random_phase_sequence 60 2 (Sun.preShuffleRadii 60 2) (by decide)
      (List.Perm.refl _)).2.2).trans (by decide)⟩

/-- The sun state reached at the end of ShrinkPhase with the default
configuration: radius shrunk down to 2 (= the decrement), radii deque still
as built at `__init__` (initial radius 60 prepended to the — here
unshuffled — progression). -/
def sunAtTransition : SunState :=
  ⟨640, 455, 2, 100, 100, 2,
    Sun.radiiAfterShuffle 60 (Sun.preShuffleRadii 60 2)⟩

/-- The game state at the end of ShrinkPhase: still in the first phase,
no outcome flag set. -/
def gameAtTransition : GameState :=
  ⟨sunAtTransition, true, false, false, false, true, false, false, "Gagné !"⟩

/-- C3 counterexample: at the default end-of-ShrinkPhase state, the hit at
the centre does flip the phase flags, but the size after the transition
frame (the `render` pop) is the initial radius 60, not the decrement 2. -/
theorem transition_size_counterexample :
    (Game.processClick gameAtTransition 100 100 9 9).firstGamePhase = false ∧
    (Game.processClick gameAtTransition 100 100 9 9).secondGamePhase = true ∧
    (Game.renderStep (Game.processClick gameAtTransition 100 100 9 9) 8 8).sun.radius
      = 60 ∧
    ¬ (Game.renderStep (Game.processClick gameAtTransition 100 100 9 9) 8 8).sun.radius
      = 2 := by decide

/-- C3 amended: in ShrinkPhase, a hit flips the phase flags to RandomPhase
exactly when `size ≤ decrement` (a hit with `size > decrement` leaves the
flags alone); the click handler itself leaves the size unchanged, and the
subsequent `render` step resets the size to the head of the RandomPhase
sequence — the prepended initial radius, not the decrement. -/
theorem transition_size_amended (g : GameState) (mx my rx ry rx2 ry2 r0 : ℤ)
    (rest : List ℤ)
    (hfirst : g.firstGamePhase = true) (hsecond : g.secondGamePhase = false)
    (hng : g.endGame = false)
    (hhit : Game.does_point_belong_to_circle mx my g.sun = true)
    (hradii : g.sun.sunRadii = r0 :: rest) :
    (g.sun.radius ≤ g.sun.sunReducingValue →
      (Game.processClick g mx my rx ry).firstGamePhase = false ∧
      (Game.processClick g mx my rx ry).secondGamePhase = true ∧
      (Game.processClick g mx my rx ry).sun.radius = g.sun.radius ∧
      (Game.renderStep (Game.processClick g mx my rx ry) rx2 ry2).sun.radius
        = r0) ∧
    (g.sun.sunReducingValue < g.sun.radius →
      (Game.processClick g mx my rx ry).firstGamePhase = true ∧
      (Game.processClick g mx my rx ry).secondGamePhase = false) := by
  constructor
  · intro h
    have h' : ¬ g.sun.sunReducingValue < g.sun.radius := not_lt.mpr h
    simp [Game.processClick, Game.renderStep, Sun.change_radius, Sun.update,
      hfirst, hsecond, hng, hhit, hradii, h']
  · intro h
    simp [Game.processClick, Sun.change_radius, Sun.update,
      hfirst, hsecond, hng, hhit, h]

/-- A mid-ShrinkPhase game state (radius 60) used to witness the no-flip
half of the amended C3. -/
def gameMidShrink : GameState :=
  ⟨⟨640, 455, 60, 100, 100, 2,
      Sun.radiiAfterShuffle 60 (Sun.preShuffleRadii 60 2)⟩,
    true, false, false, false, true, false, false, "Gagné !"⟩

/-- Witness for amended C3: at the concrete transition state, the hit flips
the flags, keeps size 2, and the render pop resets to 60; at a mid-phase
state with radius 60 the flags stay in ShrinkPhase. -/
theorem transition_size_amended_witness :
    ((Game.processClick gameAtTransition 100 100 9 9).firstGamePhase = false ∧
      (Game.processClick gameAtTransition 100 100 9 9).secondGamePhase = true ∧
      (Game.processClick gameAtTransition 100 100 9 9).sun.radius =
        gameAtTransition.sun.radius ∧
      (Game.renderStep (Game.processClick gameAtTransition 100 100 9 9) 8 8).sun.radius
        = 60) ∧
    ((Game.processClick gameMidShrink 100 100 9 9).firstGamePhase = true ∧
      (Game.processClick gameMidShrink 100 100 9 9).secondGamePhase = false) :=
  ⟨(transition_size_amended gameAtTransition 100 100 9 9 8 8 60
      (Sun.preShuffleRadii 60 2) rfl rfl rfl (by decide) rfl).1 (by decide),
   (transition_size_amended gameMidShrink 100 100 9 9 8 8 60
      (Sun.preShuffleRadii 60 2) rfl rfl rfl (by decide) rfl).2 (by decide)⟩

/-- The sun state after `n` RandomPhase hits from state `s`, where `f`
supplies the random draws consumed by the `n`-th hit's `update` call. -/
def stateAfterRandomHits (s : SunState) (f : ℕ → ℤ × ℤ) : ℕ → SunState
  | 0 => s
  | n + 1 =>
    (Sun.change_radius (stateAfterRandomHits s f n) false true
      (f n).1 (f n).2).2

/-- The result returned by the `(n+1)`-st RandomPhase hit (0-indexed `n`)
starting from state `s`. -/
def nthRandomHitResult (s : SunState) (f : ℕ → ℤ × ℤ) (n : ℕ) : Option Bool :=
  (Sun.change_radius (stateAfterRandomHits s f n) false true
    (f n).1 (f n).2).1

/-- Helper: a RandomPhase hit always leaves the tail of the radii deque,
whether or not the pop succeeds. -/
theorem change_radius_random_sunRadii (s : SunState) (rx ry : ℤ) :
    (Sun.change_radius s false true rx ry).2.sunRadii = s.sunRadii.tail := by
  cases h : s.sunRadii <;> simp [Sun.change_radius, Sun.update, h]

/-- Helper: after `n` RandomPhase hits the radii deque is the `n`-fold drop
of the initial one. -/
theorem stateAfterRandomHits_sunRadii (s : SunState) (f : ℕ → ℤ × ℤ)
    (n : ℕ) :
    (stateAfterRandomHits s f n).sunRadii = s.sunRadii.drop n := by
  induction n with
  | zero => rfl
  | succ n ih =>
    rw [stateAfterRandomHits, change_radius_random_sunRadii, ih,
      List.tail_drop]

/-- Helper: the `(n+1)`-st RandomPhase hit returns `True` precisely while
the deque still has an element to pop, `False` afterwards — never anything
else. -/
theorem nthRandomHitResult_eq (s : SunState) (f : ℕ → ℤ × ℤ) (n : ℕ) :
    nthRandomHitResult s f n = some (decide (n < s.sunRadii.length)) := by
  have hdrop := stateAfterRandomHits_sunRadii s f n
  cases hcase : (stateAfterRandomHits s f n).sunRadii with
  | nil =>
    have hlen : s.sunRadii.length ≤ n := by
      rw [hcase] at hdrop
      have := congrArg List.length hdrop
      simp only [List.length_nil, List.length_drop] at this
      omega
    simp [nthRandomHitResult, Sun.change_radius, hcase, Nat.not_lt.mpr hlen]
  | cons a rest =>
    have hlen : n < s.sunRadii.length := by
      rw [hcase] at hdrop
      have := congrArg List.length hdrop
      simp only [List.length_cons, List.length_drop] at this
      omega
    simp [nthRandomHitResult, Sun.change_radius, Sun.update, hcase, hlen]

/-- C4: starting from the RandomPhase state left by the phase-entry pop —
whose deque holds `L − 1` elements when the full candidate sequence had
length `L` — the `k`-th hit (`k = n + 1`) returns `True` iff `k < L` and
`False` iff `k ≥ L`, whatever the shuffle produced: the first `False`
(victory) lands exactly on the `L`-th hit since phase entry.  Exhaustion in
either phase is a `some false` result of the total `change_radius`
function — the `IndexError` is caught inside it and the ShrinkPhase guard
precedes any mutation — never a fault. -/
theorem random_phase_victory (s : SunState) (f : ℕ → ℤ × ℤ) (L n : ℕ)
    (hL : s.sunRadii.length + 1 = L) (t : SunState) (rx ry : ℤ)
    (ht : t.radius ≤ t.sunReducingValue) :
    (nthRandomHitResult s f n = some true ↔ n + 1 < L) ∧
    (nthRandomHitResult s f n = some false ↔ L ≤ n + 1) ∧
    (nthRandomHitResult s f n).isSome = true ∧
    (Sun.change_radius t true false rx ry).1 = some false := by
  have h := nthRandomHitResult_eq s f n
  refine ⟨?_, ?_, by rw [h]; rfl, ?_⟩
  · rw [h]
    simp only [Option.some.injEq, decide_eq_true_eq]
    omega
  · rw [h]
    simp only [Option.some.injEq, decide_eq_false_iff_not, Nat.not_lt]
    omega
  · have ht' : ¬ t.sunReducingValue < t.radius := not_lt.mpr ht
    simp [Sun.change_radius, ht']

/-- Witness for C4: a phase-entry deque of 2 remaining elements (full
sequence length 3); the third hit is the exhaustion hit, and a size-2 sun in
ShrinkPhase reports exhaustion as `False`. -/
theorem random_phase_victory_witness :
    (nthRandomHitResult ⟨640, 455, 60, 100, 100, 2, [4, 2]⟩
        (fun _ => ((9 : ℤ), (9 : ℤ))) 2 = some true ↔ 2 + 1 < 3) ∧
    (nthRandomHitResult ⟨640, 455, 60, 100, 100, 2, [4, 2]⟩
        (fun _ => ((9 : ℤ), (9 : ℤ))) 2 = some false ↔ 3 ≤ 2 + 1) ∧
    (nthRandomHitResult ⟨640, 455, 60, 100, 100, 2, [4, 2]⟩
        (fun _ => ((9 : ℤ), (9 : ℤ))) 2).isSome = true ∧
    (Sun.change_radius ⟨640, 455, 2, 100, 100, 2, []⟩ true false 9 9).1 =
      some false :=
  random_phase_victory ⟨640, 455, 60, 100, 100, 2, [4, 2]⟩
    (fun _ => ((9 : ℤ), (9 : ℤ))) 3 2 rfl
    ⟨640, 455, 2, 100, 100, 2, []⟩ 9 9 (by decide)

end CatchMe
